import Mathlib

/-!
Verification of the VEO video-generation orchestration layer
(`veo/models/config.py`, `veo/core/client.py`, `veo/core/video_generator_api.py`,
`veo/core/veo_api.py`, `veo/core/svd_client.py`, `veo/core/ltx_video_client.py`,
`veo/core/generator.py`) as a shallow embedding in Lean 4.

External effects (provider calls, the filesystem, logging) are modelled as
explicit parameters or oracle functions; exceptions are modelled with `Except`.
-/

namespace Veo

/-- Embeds `AspectRatio` from `veo/models/config.py`: the supported aspect
ratios `"16:9"`, `"9:16"`, `"1:1"`. -/
inductive AspectRatio
  | landscape
  | portrait
  | square
deriving DecidableEq, Repr

/-- Embeds `PersonGeneration` from `veo/models/config.py`. -/
inductive PersonGeneration
  | allowAdult
  | dontAllow
deriving DecidableEq, Repr

/-- Pydantic coercion of a raw string to the `AspectRatio` enum: succeeds
exactly on the three member values declared in `veo/models/config.py`. -/
def parseAspectRatio (s : String) : Option AspectRatio :=
  if s = "16:9" then some AspectRatio.landscape
  else if s = "9:16" then some AspectRatio.portrait
  else if s = "1:1" then some AspectRatio.square
  else none

/-- Embeds the fields of `VEOConfig` (`veo/models/config.py`) that the
orchestration code reads: `model` (logged at client construction),
`output_dir` (the only config field the SVD/LTX provider code reads),
`max_concurrent_operations`, and the two retry fields, which are declared
in the config but never read by any generation code path. -/
structure VEOConfig where
  model : String
  output_dir : String
  max_concurrent_operations : Nat
  retry_attempts : Nat
  retry_delay : Nat
deriving DecidableEq, Repr

/-- Embeds the `VideoRequest` value object of `veo/models/config.py`,
after successful validation. Paths are modelled as strings. -/
structure VideoRequest where
  prompt : String
  image_path : Option String
  aspect_ratio : AspectRatio
  duration : Int
  number_of_videos : Int
  person_generation : PersonGeneration
  enhance_prompt : Bool
  output_gcs_uri : Option String
  output_filename : Option String
deriving DecidableEq, Repr

/-- The distinct validation failures `VideoRequest` can raise at
construction time (`veo/models/config.py`, field constraints plus the
`validate_image_path` and `validate_gcs_uri` validators). -/
inductive ValidationError
  | promptLength
  | imageNotFound
  | badAspectRatio
  | durationRange
  | countRange
  | badGcsUri
deriving DecidableEq, Repr

/-- Embeds construction of a `VideoRequest` (`veo/models/config.py` lines
89-120): pydantic checks `min_length=10`/`max_length=10000` on `prompt`,
`ge=1`/`le=8` on `duration`, `ge=1`/`le=4` on `number_of_videos`, coerces
`aspect_ratio` from its raw string, and runs the validators `validate_image_path`
(the file must exist if a path is given; the filesystem is the oracle
`fileExists`) and `validate_gcs_uri` (`if v and not v.startswith("gs://")`:
the check applies only to a truthy — non-empty — URI, so an empty string
skips it, mirroring Python's falsiness of `""`). A constraint violation
raises a `ValidationError` synchronously; otherwise the value object is
returned. -/
def mkVideoRequest (fileExists : String → Bool) (prompt : String)
    (image_path : Option String) (aspect_ratio : String)
    (duration number_of_videos : Int) (person_generation : PersonGeneration)
    (enhance_prompt : Bool) (output_gcs_uri output_filename : Option String) :
    Except ValidationError VideoRequest :=
  if prompt.length < 10 then Except.error ValidationError.promptLength
  else if prompt.length > 10000 then Except.error ValidationError.promptLength
  else if (match image_path with
           | some p => !(fileExists p)
           | none => false) then Except.error ValidationError.imageNotFound
  else match parseAspectRatio aspect_ratio with
  | none => Except.error ValidationError.badAspectRatio
  | some ar =>
    if duration < 1 then Except.error ValidationError.durationRange
    else if duration > 8 then Except.error ValidationError.durationRange
    else if number_of_videos < 1 then Except.error ValidationError.countRange
    else if number_of_videos > 4 then Except.error ValidationError.countRange
    else if (match output_gcs_uri with
             | some u => (u != "") && !(u.startsWith "gs://")
             | none => false) then Except.error ValidationError.badGcsUri
    else Except.ok
      { prompt := prompt, image_path := image_path, aspect_ratio := ar,
        duration := duration, number_of_videos := number_of_videos,
        person_generation := person_generation, enhance_prompt := enhance_prompt,
        output_gcs_uri := output_gcs_uri, output_filename := output_filename }

/-- Embeds `LTXVideoClient._calculate_frames` (`veo/core/ltx_video_client.py`
lines 198-218): `target_frames = duration_seconds * 30`,
`frames = ((target_frames - 1) // 8) * 8 + 1`, then
`frames = max(9, min(frames, 257))`. `Nat` subtraction and division agree
with Python here for every duration `>= 1` (all intermediate values are
then nonnegative). -/
def calculate_frames (duration_seconds : Nat) : Nat :=
  max 9 (min (((duration_seconds * 30 - 1) / 8) * 8 + 1) 257)

/-- Exceptions crossing the provider boundaries, modelled by their message. -/
abbrev Err := String

/-- The three video providers named by the specification's fallback-chain
sentence: the cloud VEO API, the local SVD diffusion pipeline, and the
local LTX-Video diffusion pipeline. -/
inductive Provider
  | cloudAPI
  | svd
  | ltx
deriving DecidableEq, Repr

/-- Log events emitted by `VEOClient.generate_video_async`
(`veo/core/client.py`): the start message, the success message, and the
error message logged before re-raising. -/
inductive LogEvent
  | info
  | success
  | error
deriving DecidableEq, Repr

/-- Embeds `VideoGeneratorAPI.generate_video_async`
(`veo/core/video_generator_api.py` lines 39-75): try the local SVD pipeline
first; on exception fall back to the local LTX-Video pipeline; if that also
raises, the exception propagates. The outcomes of the two provider calls are
the parameters `svd` and `ltx`; the first component of the result records
which providers were invoked, in order. -/
def generate_video_api (svd ltx : Except Err (List String)) :
    List Provider × Except Err (List String) :=
  match svd with
  | Except.ok uris => ([Provider.svd], Except.ok uris)
  | Except.error _ =>
    match ltx with
    | Except.ok uris => ([Provider.svd, Provider.ltx], Except.ok uris)
    | Except.error e => ([Provider.svd, Provider.ltx], Except.error e)

/-- Embeds `VEOAPIClient.generate_video_async` (`veo/core/veo_api.py` lines
55-82): this (unwired) client calls the cloud VEO API directly and re-raises
its exception; no local pipeline is attempted in that method. -/
def veo_api_generate (cloud : Except Err (List String)) :
    List Provider × Except Err (List String) :=
  match cloud with
  | Except.ok uris => ([Provider.cloudAPI], Except.ok uris)
  | Except.error e => ([Provider.cloudAPI], Except.error e)

/-- Embeds `VEOClient.generate_video_async` (`veo/core/client.py` lines
35-61): log the start, call the underlying API client; on success log
success and return the URIs, on exception log the error and re-raise the
same exception. The underlying call's outcome is the parameter. -/
def client_generate_video (underlying : Except Err (List String)) :
    List LogEvent × Except Err (List String) :=
  match underlying with
  | Except.ok uris => ([LogEvent.info, LogEvent.success], Except.ok uris)
  | Except.error e => ([LogEvent.info, LogEvent.error], Except.error e)

/-- The per-slot handling of `VEOClient.batch_generate_videos`
(`veo/core/client.py` lines 120-127): an outcome gathered with
`return_exceptions=True` becomes `[]` when it is an exception and is kept
otherwise. -/
def batch_slot (r : Except Err (List String)) : List String :=
  match r with
  | Except.ok uris => uris
  | Except.error _ => []

/-- Embeds `VEOClient.batch_generate_videos` (`veo/core/client.py` lines
92-130): `asyncio.gather(..., return_exceptions=True)` yields one outcome
per request in input order (the oracle `gen` gives each request's outcome;
an exception is returned in place, never propagated), and the result loop
replaces each exception by an empty list. -/
def batch_generate_videos (gen : VideoRequest → Except Err (List String))
    (requests : List VideoRequest) : List (List String) :=
  (requests.map gen).map batch_slot

/-- The defaulting `max_concurrent = max_concurrent or
self.config.max_concurrent_operations` of `veo/core/client.py` line 107;
Python `or` also replaces an explicit `0`, which is falsy. -/
def effective_max_concurrent (max_concurrent : Option Nat)
    (config : VEOConfig) : Nat :=
  match max_concurrent with
  | none => config.max_concurrent_operations
  | some k => if k = 0 then config.max_concurrent_operations else k

/-- The lifecycle of one request's task inside `batch_generate_videos`:
pending before `async with semaphore` grants a permit, running while
`generate_video_async` executes under the semaphore, done after release. -/
inductive TaskStatus
  | pending
  | running
  | done
deriving DecidableEq, Repr

/-- One event-loop step of the semaphore-guarded batch
(`veo/core/client.py` lines 111-118). The state is the semaphore counter
paired with the status of every task. `acquire` lets a pending task start
only when the counter is positive, decrementing it; `release` finishes a
running task and increments the counter, exactly the discipline of
`async with semaphore`. -/
inductive BatchStep : Nat × List TaskStatus → Nat × List TaskStatus → Prop
  | acquire (sem : Nat) (l₁ l₂ : List TaskStatus) :
      BatchStep (sem + 1, l₁ ++ TaskStatus.pending :: l₂)
        (sem, l₁ ++ TaskStatus.running :: l₂)
  | release (sem : Nat) (l₁ l₂ : List TaskStatus) :
      BatchStep (sem, l₁ ++ TaskStatus.running :: l₂)
        (sem + 1, l₁ ++ TaskStatus.done :: l₂)

/-- Number of tasks currently executing under the semaphore. -/
def runningCount : List TaskStatus → Nat
  | [] => 0
  | TaskStatus.running :: ts => runningCount ts + 1
  | _ :: ts => runningCount ts

/-- The initial batch state: the semaphore holds `K` permits
(`asyncio.Semaphore(max_concurrent)`) and all `n` tasks are pending. -/
def batchInit (K n : Nat) : Nat × List TaskStatus :=
  (K, List.replicate n TaskStatus.pending)

/-- Replace only the retry configuration fields of a `VEOConfig`. -/
def setRetry (cfg : VEOConfig) (attempts delay : Nat) : VEOConfig :=
  { cfg with retry_attempts := attempts, retry_delay := delay }

/-- Embeds the full single-generation path `VEOClient.generate_video_async`
→ `VideoGeneratorAPI.generate_video_async` → SVD / LTX clients. Each
provider is an oracle receiving the configuration data the provider code
actually reads (`config.output_dir`, the only `VEOConfig` field used by
`svd_client.py` and `ltx_video_client.py`) together with the request. -/
def client_generate_with_config (cfg : VEOConfig)
    (svd ltx : String → VideoRequest → Except Err (List String))
    (req : VideoRequest) : List Provider × Except Err (List String) :=
  generate_video_api (svd cfg.output_dir req) (ltx cfg.output_dir req)

/-- Embeds the generation loop of `SVDClient.generate_video_async`
(`veo/core/svd_client.py` lines 101-114, identical shape in
`LTXVideoClient.generate_video_async`): for `i in range(n)` generate one
video and append its path; the first exception propagates out. `gen_single`
is the outcome of `_generate_single_video` at each index. -/
def svd_generate_videos (gen_single : Nat → Except Err String) :
    Nat → Except Err (List String)
  | 0 => Except.ok []
  | n + 1 =>
    match svd_generate_videos gen_single n with
    | Except.error e => Except.error e
    | Except.ok paths =>
      match gen_single n with
      | Except.error e => Except.error e
      | Except.ok p => Except.ok (paths ++ [p])

/-- Embeds the URI construction of `VEOAPIClient._call_real_veo_api`
(`veo/core/veo_api.py` lines 172-185): one
`file://output/videos/video_<timestamp>_<i>.mp4` URI per requested video. -/
def call_real_veo_api (timestamp : String) (number_of_videos : Nat) :
    List String :=
  (List.range number_of_videos).map
    (fun i => "file://output/videos/video_" ++ timestamp ++ "_" ++ toString i ++ ".mp4")

/-- The Python errors this embedding distinguishes beyond provider
exceptions: reading an undefined name raises `NameError`. -/
inductive PyErr
  | nameError
deriving DecidableEq, Repr

/-- Embeds the filename computation of `VideoGenerator._download_video`
(`veo/core/generator.py` lines 167-175). The branch condition is
`if request.output_filename:`, Python truthiness: it is taken exactly when
the field is set to a non-empty string. In that branch the code evaluates
`len(video_uris)`, but no name `video_uris` is in scope anywhere in that
function, so Python raises `NameError` before any name is produced; in the
else branch (field unset, or set to the falsy `""`) the name is
`video_<timestamp>_<index>.mp4`. -/
def download_video_name (output_filename : Option String)
    (timestamp : String) (index : Nat) : Except PyErr String :=
  if (match output_filename with
      | some fn => fn != ""
      | none => false) then Except.error PyErr.nameError
  else Except.ok ("video_" ++ timestamp ++ "_" ++ toString index ++ ".mp4")

/-- Embeds the filename of `SVDClient._generate_single_video`
(`veo/core/svd_client.py` lines 225-228):
`svd_video_{timestamp}_{video_index}.mp4`. -/
def svd_video_filename (timestamp : String) (video_index : Nat) : String :=
  "svd_video_" ++ timestamp ++ "_" ++ toString video_index ++ ".mp4"

/-- Embeds the filename of `LTXVideoClient._generate_single_video`
(`veo/core/ltx_video_client.py` lines 314-317):
`ltx_video_{timestamp}_{video_index}.mp4`. -/
def ltx_video_filename (timestamp : String) (video_index : Nat) : String :=
  "ltx_video_" ++ timestamp ++ "_" ++ toString video_index ++ ".mp4"

/-- Embeds the `create_output_dir` validator of `VEOConfig`
(`veo/models/config.py` lines 60-64): at configuration construction the
output directory is created (`mkdir(parents=True, exist_ok=True)`); the
filesystem is modelled as the list of existing directories. -/
def create_output_dir (dirs : List String) (output_dir : String) :
    List String :=
  output_dir :: dirs

/-- Filesystem operations the file-writing code performs, in order. -/
inductive FsOp
  | mkdirP (d : String)
  | writeFile (f : String)
deriving DecidableEq, Repr

/-- A filesystem state: the directories and the files that exist. -/
structure Fs where
  dirs : List String
  files : List String
deriving DecidableEq, Repr

/-- Effect of one filesystem operation. -/
def runOp (fs : Fs) : FsOp → Fs
  | FsOp.mkdirP d => { fs with dirs := d :: fs.dirs }
  | FsOp.writeFile f => { fs with files := f :: fs.files }

/-- Effect of a sequence of filesystem operations. -/
def runOps (fs : Fs) (ops : List FsOp) : Fs :=
  ops.foldl runOp fs

/-- The filesystem operations of `SVDClient._save_video`
(`veo/core/svd_client.py` lines 264-268, same shape in
`LTXVideoClient._save_video`): `output_path.parent.mkdir(parents=True,
exist_ok=True)` first, then the write of the video file. -/
def save_video_ops (video_path parent : String) : List FsOp :=
  [FsOp.mkdirP parent, FsOp.writeFile video_path]

/-- A concrete valid request, used to instantiate theorems. -/
def sampleRequest : VideoRequest :=
  { prompt := "A beautiful sunset over the sea"
    image_path := none
    aspect_ratio := AspectRatio.landscape
    duration := 8
    number_of_videos := 1
    person_generation := PersonGeneration.allowAdult
    enhance_prompt := true
    output_gcs_uri := none
    output_filename := none }

end Veo

/-- C10: for every duration `d >= 1`, `LTXVideoClient._calculate_frames d`
returns a frame count congruent to 1 modulo 8 and lying within `[9, 257]`. -/
theorem calculate_frames_mod_and_bounds (d : Nat) (hd : 1 ≤ d) :
    Veo.calculate_frames d % 8 = 1 ∧
    9 ≤ Veo.calculate_frames d ∧ Veo.calculate_frames d ≤ 257 := by
  unfold Veo.calculate_frames
  rw [Nat.max_def, Nat.min_def]
  split <;> split <;> omega

/-- Witness for C10 at the concrete duration 3. -/
theorem calculate_frames_mod_and_bounds_witness :
    (1 ≤ 3) ∧ (Veo.calculate_frames 3 % 8 = 1 ∧
      9 ≤ Veo.calculate_frames 3 ∧ Veo.calculate_frames 3 ≤ 257) :=
  ⟨by decide, calculate_frames_mod_and_bounds 3 (by decide)⟩

/-- `runningCount` distributes over list concatenation. -/
theorem Veo.runningCount_append (a b : List Veo.TaskStatus) :
    Veo.runningCount (a ++ b) = Veo.runningCount a + Veo.runningCount b := by
  induction a with
  | nil => simp [Veo.runningCount]
  | cons t ts ih => cases t <;> simp [Veo.runningCount, ih] <;> omega

/-- No task is running in the initial batch state. -/
theorem Veo.runningCount_replicate_pending (n : Nat) :
    Veo.runningCount (List.replicate n Veo.TaskStatus.pending) = 0 := by
  induction n with
  | zero => rfl
  | succ n ih => simpa [List.replicate, Veo.runningCount] using ih

/-- Each semaphore step preserves `counter + running = K`: a permit is
spent exactly while a task runs. -/
theorem Veo.batchStep_inv {K : Nat} {s t : Nat × List Veo.TaskStatus}
    (h : Veo.BatchStep s t) (hinv : s.1 + Veo.runningCount s.2 = K) :
    t.1 + Veo.runningCount t.2 = K := by
  cases h with
  | acquire sem l₁ l₂ =>
    simp only [Veo.runningCount_append, Veo.runningCount] at hinv ⊢
    omega
  | release sem l₁ l₂ =>
    simp only [Veo.runningCount_append, Veo.runningCount] at hinv ⊢
    omega

/-- C6: in every state reachable by the semaphore-guarded batch dispatch
from the initial state with `n` requests and concurrency limit `K`, at most
`K` per-request generation calls are running; and an omitted
`max_concurrent` argument defaults to `config.max_concurrent_operations`. -/
theorem batch_semaphore_bound (K n : Nat) (cfg : Veo.VEOConfig)
    (s : Nat × List Veo.TaskStatus)
    (h : Relation.ReflTransGen Veo.BatchStep (Veo.batchInit K n) s) :
    Veo.runningCount s.2 ≤ K ∧
      Veo.effective_max_concurrent none cfg = cfg.max_concurrent_operations := by
  refine ⟨?_, rfl⟩
  have hinv : s.1 + Veo.runningCount s.2 = K := by
    induction h with
    | refl => simp [Veo.batchInit, Veo.runningCount_replicate_pending]
    | tail hsteps hstep ih => exact Veo.batchStep_inv hstep ih
  omega

/-- Witness for C6: with `K = 1` and two requests, after one task acquires
the semaphore, one task is running. -/
theorem batch_semaphore_bound_witness :
    Veo.runningCount (0, [Veo.TaskStatus.running, Veo.TaskStatus.pending]).2 ≤ 1 ∧
      Veo.effective_max_concurrent none
          { model := "m", output_dir := "o", max_concurrent_operations := 3,
            retry_attempts := 3, retry_delay := 30 } = 3 :=
  batch_semaphore_bound 1 2
    { model := "m", output_dir := "o", max_concurrent_operations := 3,
      retry_attempts := 3, retry_delay := 30 }
    (0, [Veo.TaskStatus.running, Veo.TaskStatus.pending])
    (Relation.ReflTransGen.single
      (Veo.BatchStep.acquire 0 [] [Veo.TaskStatus.pending]))

/-- C1: `VEOClient.batch_generate_videos` returns one result slot per input
request, in input order; a request whose generation raised an exception
yields `[]` in its slot, a successful one yields its URI list, and no
per-request exception escapes (the embedding is a total function into
result lists). -/
theorem batch_one_slot_per_request
    (gen : Veo.VideoRequest → Except Veo.Err (List String))
    (requests : List Veo.VideoRequest) :
    (Veo.batch_generate_videos gen requests).length = requests.length ∧
    ∀ (i : Nat) (r : Veo.VideoRequest), requests[i]? = some r →
      (Veo.batch_generate_videos gen requests)[i]? =
        some (match gen r with
              | Except.ok uris => uris
              | Except.error _ => []) := by
  constructor
  · simp [Veo.batch_generate_videos]
  · intro i r hr
    simp only [Veo.batch_generate_videos, List.getElem?_map, hr, Option.map_some]
    cases hgen : gen r <;> simp [Veo.batch_slot, hgen]

/-- Witness for C1: a batch of one request whose generation fails yields
exactly one slot holding the empty list. -/
theorem batch_one_slot_per_request_witness :
    (Veo.batch_generate_videos (fun _ => Except.error "provider down")
        [Veo.sampleRequest])[0]? = some [] := by
  have h :=
    (batch_one_slot_per_request (fun _ => Except.error "provider down")
      [Veo.sampleRequest]).2 0 Veo.sampleRequest rfl
  simpa using h

/-- C4: `VEOClient.generate_video_async` re-raises the same exception after
logging it, and returns normally exactly when the underlying call
succeeds, with the underlying URI list unchanged. -/
theorem single_generation_error_propagation
    (u : Except Veo.Err (List String)) :
    (∀ e, u = Except.error e →
        (Veo.client_generate_video u).2 = Except.error e ∧
        Veo.LogEvent.error ∈ (Veo.client_generate_video u).1) ∧
    (∀ uris, u = Except.ok uris →
        (Veo.client_generate_video u).2 = Except.ok uris) ∧
    ((Veo.client_generate_video u).2.isOk = true ↔ u.isOk = true) := by
  cases u <;> simp [Veo.client_generate_video, Except.isOk]

/-- Witness for C4: a failing underlying call at message `"boom"` is
re-raised unchanged and logged as an error. -/
theorem single_generation_error_propagation_witness :
    (Veo.client_generate_video (Except.error "boom")).2 = Except.error "boom" ∧
      Veo.LogEvent.error ∈ (Veo.client_generate_video (Except.error "boom")).1 :=
  (single_generation_error_propagation (Except.error "boom")).1 "boom" rfl

/-- C2 counterexample: in the provider chain actually wired into
`VEOClient` (`VideoGeneratorAPI.generate_video_async`), at the concrete
execution where the first provider fails and the fallback succeeds, the
attempted-provider trace is `[svd, ltx]`: the first provider attempted is
the local SVD pipeline, not the cloud API, and the cloud API is never
attempted at all — and the separate `VEOAPIClient.generate_video_async`
attempts only the cloud API, with no local fallback. This contradicts the
claimed chain cloud API → local pipeline A → local pipeline B. -/
theorem fallback_chain_counterexample :
    (Veo.generate_video_api (Except.error "svd down")
        (Except.ok ["file://v.mp4"])).1 = [Veo.Provider.svd, Veo.Provider.ltx] ∧
    Veo.Provider.cloudAPI ∉
      (Veo.generate_video_api (Except.error "svd down")
        (Except.ok ["file://v.mp4"])).1 ∧
    (Veo.veo_api_generate (Except.error "cloud down")).1 =
      [Veo.Provider.cloudAPI] := by
  refine ⟨rfl, by decide, rfl⟩

/-- C2 (amended): for every generation request, the chain used by
`VEOClient` attempts providers in a linear two-provider fallback chain of
local pipelines — SVD first; on exception, LTX-Video — the cloud API is not
part of the chain, and an exception is raised if and only if every provider
in the chain fails. -/
theorem fallback_chain_amended (svd ltx : Except Veo.Err (List String)) :
    (∀ uris, svd = Except.ok uris →
        Veo.generate_video_api svd ltx =
          ([Veo.Provider.svd], Except.ok uris)) ∧
    (∀ e uris, svd = Except.error e → ltx = Except.ok uris →
        Veo.generate_video_api svd ltx =
          ([Veo.Provider.svd, Veo.Provider.ltx], Except.ok uris)) ∧
    ((∃ e, (Veo.generate_video_api svd ltx).2 = Except.error e) ↔
      (∃ e, svd = Except.error e) ∧ (∃ e, ltx = Except.error e)) ∧
    Veo.Provider.cloudAPI ∉ (Veo.generate_video_api svd ltx).1 := by
  cases svd <;> cases ltx <;> simp [Veo.generate_video_api]

/-- Witness for C2 (amended): SVD fails, LTX-Video succeeds, so the result
comes from LTX-Video after both local providers were attempted in order. -/
theorem fallback_chain_amended_witness :
    Veo.generate_video_api (Except.error "svd down") (Except.ok ["file://w.mp4"])
      = ([Veo.Provider.svd, Veo.Provider.ltx], Except.ok ["file://w.mp4"]) :=
  (fallback_chain_amended (Except.error "svd down")
    (Except.ok ["file://w.mp4"])).2.1 "svd down" ["file://w.mp4"] rfl rfl

/-- C5: no retry is performed: a single generation run invokes each
provider at most once (the attempt trace counts every provider at most
once), and two runs differing only in the `retry_attempts` and
`retry_delay` configuration fields behave identically. -/
theorem no_retry_policy (cfg : Veo.VEOConfig) (a d a' d' : Nat)
    (svd ltx : String → Veo.VideoRequest → Except Veo.Err (List String))
    (req : Veo.VideoRequest) :
    Veo.client_generate_with_config (Veo.setRetry cfg a d) svd ltx req =
      Veo.client_generate_with_config (Veo.setRetry cfg a' d') svd ltx req ∧
    ∀ p : Veo.Provider,
      (Veo.client_generate_with_config cfg svd ltx req).1.count p ≤ 1 := by
  refine ⟨rfl, ?_⟩
  intro p
  unfold Veo.client_generate_with_config Veo.generate_video_api
  cases svd cfg.output_dir req <;> cases ltx cfg.output_dir req <;>
    cases p <;> simp [List.count_cons]

/-- C8: a generation that completes successfully returns as many video
URIs as requested: the SVD/LTX generation loop over `number_of_videos`
produces exactly that many paths when it succeeds, and
`VEOAPIClient._call_real_veo_api` always returns `number_of_videos` URIs. -/
theorem success_returns_requested_count
    (g : Nat → Except Veo.Err String) (n : Nat) (ts : String) :
    (∀ paths, Veo.svd_generate_videos g n = Except.ok paths →
        paths.length = n) ∧
    (Veo.call_real_veo_api ts n).length = n := by
  constructor
  · induction n with
    | zero =>
      intro paths h
      simp only [Veo.svd_generate_videos] at h
      cases h
      rfl
    | succ n ih =>
      intro paths h
      simp only [Veo.svd_generate_videos] at h
      cases hrec : Veo.svd_generate_videos g n with
      | error e => rw [hrec] at h; cases h
      | ok prev =>
        rw [hrec] at h
        cases hg : g n with
        | error e => rw [hg] at h; cases h
        | ok p =>
          rw [hg] at h
          cases h
          simpa using ih prev hrec
  · simp [Veo.call_real_veo_api]

/-- Witness for C8: a two-video generation where each single generation
succeeds returns two paths, and the API URI list at count 2 has length 2. -/
theorem success_returns_requested_count_witness :
    (["0", "1"] : List String).length = 2 ∧
      (Veo.call_real_veo_api "1700000000" 2).length = 2 :=
  ⟨(success_returns_requested_count (fun i => Except.ok (toString i)) 2
      "1700000000").1 ["0", "1"] (by rfl),
   (success_returns_requested_count (fun i => Except.ok (toString i)) 2
      "1700000000").2⟩

/-- C7: the output directory is created at configuration construction and
the parent directory again before each video file is written (the mkdir is
the first filesystem operation of `_save_video`, the write the second), and
every generated or downloaded video file without a custom output filename
is named by timestamp and index: `video_<ts>_<i>.mp4` for downloads,
`svd_video_<ts>_<i>.mp4` and `ltx_video_<ts>_<i>.mp4` for the local
pipelines. -/
theorem output_dir_and_filenames (dirs : List String) (od ts p par : String)
    (idx : Nat) (fs : Veo.Fs) :
    od ∈ Veo.create_output_dir dirs od ∧
    par ∈ (Veo.runOps fs (Veo.save_video_ops p par)).dirs ∧
    p ∈ (Veo.runOps fs (Veo.save_video_ops p par)).files ∧
    (Veo.save_video_ops p par).head? = some (Veo.FsOp.mkdirP par) ∧
    Veo.download_video_name none ts idx =
      Except.ok ("video_" ++ ts ++ "_" ++ toString idx ++ ".mp4") ∧
    Veo.svd_video_filename ts idx =
      "svd_video_" ++ ts ++ "_" ++ toString idx ++ ".mp4" ∧
    Veo.ltx_video_filename ts idx =
      "ltx_video_" ++ ts ++ "_" ++ toString idx ++ ".mp4" := by
  refine ⟨?_, ?_, ?_, rfl, rfl, rfl, rfl⟩ <;>
    simp [Veo.create_output_dir, Veo.runOps, Veo.runOp, Veo.save_video_ops]

/-- C9 counterexample: at `output_filename = ""` (the field is set, but the
empty string is falsy in Python) `VideoGenerator._download_video` takes the
else branch of `if request.output_filename:`, returns the default
timestamp-index name, and raises no `NameError` — refuting the claim's
universal over every set filename. -/
theorem empty_custom_filename_no_name_error :
    Veo.download_video_name (some "") "20250101_000000" 0 =
      Except.ok "video_20250101_000000_0.mp4" ∧
    Veo.download_video_name (some "") "20250101_000000" 0 ≠
      Except.error Veo.PyErr.nameError :=
  ⟨rfl, fun h => Except.noConfusion h⟩

/-- C9 (amended): whenever `output_filename` is set to a non-empty string
on the request (the truthy case of `if request.output_filename:`),
`VideoGenerator._download_video` raises `NameError` (it reads the undefined
name `video_uris`), for every timestamp and every index. -/
theorem custom_filename_name_error (fn ts : String) (idx : Nat)
    (h : fn ≠ "") :
    Veo.download_video_name (some fn) ts idx =
      Except.error Veo.PyErr.nameError := by
  simp [Veo.download_video_name, h]

/-- Witness for C9 (amended) at the concrete non-empty filename
`"my_video"`. -/
theorem custom_filename_name_error_witness :
    Veo.download_video_name (some "my_video") "20250101_000000" 7 =
      Except.error Veo.PyErr.nameError :=
  custom_filename_name_error "my_video" "20250101_000000" 7 (by decide)

set_option maxHeartbeats 1600000 in
/-- C3 (amended): constructing a `VideoRequest` succeeds if and only if
every input is valid — the prompt length lies in `[10, 10000]`, the
duration in `[1, 8]`, `number_of_videos` in `[1, 4]`, the aspect ratio is
one of the supported enum values, any given `image_path` names an existing
file, and any given non-empty `output_gcs_uri` starts with `"gs://"` (an
empty `output_gcs_uri` is falsy in Python, so `validate_gcs_uri` skips it
and construction succeeds); otherwise a validation error is raised
synchronously, before any generation is attempted (the constructor is a
pure function independent of every provider). -/
theorem request_validation_iff (fileExists : String → Bool) (prompt : String)
    (image_path : Option String) (aspect_ratio : String)
    (duration number_of_videos : Int) (person_generation : Veo.PersonGeneration)
    (enhance_prompt : Bool) (output_gcs_uri output_filename : Option String) :
    (Veo.mkVideoRequest fileExists prompt image_path aspect_ratio duration
        number_of_videos person_generation enhance_prompt output_gcs_uri
        output_filename).isOk = true ↔
      (10 ≤ prompt.length ∧ prompt.length ≤ 10000 ∧
       (Veo.parseAspectRatio aspect_ratio).isSome = true ∧
       1 ≤ duration ∧ duration ≤ 8 ∧
       1 ≤ number_of_videos ∧ number_of_videos ≤ 4 ∧
       (∀ p, image_path = some p → fileExists p = true) ∧
       (∀ u, output_gcs_uri = some u →
          u = "" ∨ u.startsWith "gs://" = true)) := by
  rcases image_path with _ | p <;> rcases output_gcs_uri with _ | u <;>
    rcases har : Veo.parseAspectRatio aspect_ratio with _ | ar <;>
      simp only [Veo.mkVideoRequest, har] <;>
        split_ifs <;> simp_all [Except.isOk, Except.toBool] <;> tauto

/-- Witness for C3: a fully valid request constructs successfully. -/
theorem request_validation_iff_witness :
    (Veo.mkVideoRequest (fun _ => true) "A beautiful sunset over the sea" none
        "16:9" 8 1 Veo.PersonGeneration.allowAdult true none none).isOk = true :=
  (request_validation_iff (fun _ => true) "A beautiful sunset over the sea" none
      "16:9" 8 1 Veo.PersonGeneration.allowAdult true none none).mpr
    (by refine ⟨?_, ?_, ?_, ?_, ?_, ?_, ?_, ?_, ?_⟩ <;> first | decide | simp)

/-- C3 counterexample: at the concrete input with `output_gcs_uri = some ""`
— a URI that is given and does not start with `"gs://"` — construction
nevertheless succeeds, because `validate_gcs_uri` is
`if v and not v.startswith("gs://")` and the falsy empty string skips the
check; the original iff claimed a validation error here. -/
theorem request_validation_counterexample :
    (Veo.mkVideoRequest (fun _ => true) "A beautiful sunset over the sea" none
        "16:9" 8 1 Veo.PersonGeneration.allowAdult true (some "") none).isOk
      = true ∧
    ("" : String).startsWith "gs://" = false := by decide
